import Mathlib

/-!
Verification of the model registry and dynamic-build subsystem of
`fairseq_signals/models/__init__.py`.

The Python module keeps six process-wide dictionaries
(`MODEL_REGISTRY`, `MODEL_DATACLASS_REGISTRY`, `ARCH_MODEL_REGISTRY`,
`ARCH_MODEL_NAME_REGISTRY`, `ARCH_MODEL_INV_REGISTRY`,
`ARCH_CONFIG_REGISTRY`), two registration decorators
(`register_model`, `register_model_architecture`) and two build entry
points (`build_model`, `build_model_from_checkpoint`).

Here the dictionaries become association lists inside a `RegState`
record (Python dicts preserve insertion order, so an insertion is an
append at the end).  Each Python function that mutates the registries
becomes a function `RegState -> RegState x Option RegError`: the
returned state carries exactly the mutations performed before the
first `raise`, and the error component is the raised exception, so a
partially-performed registration is visible in the output state just
as it is in Python.

Configurations (`omegaconf` dict configs) are modelled as association
lists of string keys to `ConfigVal` values.  Identity fields (`_name`,
`arch`) are taken to hold strings: a non-string value there could
never match a registered (string) key.  The `argparse.Namespace`
branch of `build_model` (the `populate_dataclass` call) is outside the
modelled flows, which all go through dict configs.  The hydra
`ConfigStore` side registration, the `cls.__dataclass` attribute
write, and the final `model.build_model(cfg, task)` factory call are
external effects with no bearing on the registries or the resolved
configuration and are not modelled.

`merge_with_parent` and the checkpoint reader live in modules of this
repository that are not part of the sources considered here; they are
modelled from the spec where needed (see their doc comments).
-/

namespace FairseqSignals

/-- A configuration value: strings, booleans, naturals and nested
dictionaries cover every shape the modelled flows touch. -/
inductive ConfigVal where
  | str : String → ConfigVal
  | bool : Bool → ConfigVal
  | nat : Nat → ConfigVal
  | dict : List (String × ConfigVal) → ConfigVal

/-- A configuration object: an ordered key/value mapping, as an
`omegaconf` dict config is. -/
abbrev Config := List (String × ConfigVal)

/-- Python truthiness of a configuration value (`None` is represented
by absence, i.e. by `Option.none` one level up). -/
def truthyVal : ConfigVal → Bool
  | .str s => s ≠ ""
  | .bool b => b
  | .nat n => n ≠ 0
  | .dict d => !d.isEmpty

/-- Ordered-dictionary lookup, searching from the front exactly as a
Python dict resolves a key. -/
def alookup {α : Type} (k : String) : List (String × α) → Option α
  | [] => none
  | (k', v) :: rest => if k = k' then some v else alookup k rest

/-- In-place update of an existing key, preserving entry order;
appends at the end when the key is absent (Python `d[k] = v`). -/
def aset {α : Type} (k : String) (v : α) : List (String × α) → List (String × α)
  | [] => [(k, v)]
  | (k', v') :: rest => if k = k' then (k', v) :: rest else (k', v') :: aset k v rest

/-- A model class, reduced to what the registry inspects: an identity
and whether it extends `BaseModel`. -/
structure ModelClass where
  clsName : String
  extendsBaseModel : Bool
deriving DecidableEq

/-- A configuration dataclass (schema), reduced to what the registry
and the reconciler inspect: an identity, whether it extends
`Dataclass`, and the default-valued fields of a fresh instance `dc()`
(including the `_name` identity field). -/
structure DataclassTy where
  dcName : String
  extendsDataclass : Bool
  defaults : Config

/-- An architecture function: receives a configuration and returns the
mutated configuration (Python mutates in place). -/
abbrev ArchFn := Config → Config

/-- The six module-level registries. -/
structure RegState where
  MODEL_REGISTRY : List (String × ModelClass)
  MODEL_DATACLASS_REGISTRY : List (String × DataclassTy)
  ARCH_MODEL_REGISTRY : List (String × ModelClass)
  ARCH_MODEL_NAME_REGISTRY : List (String × String)
  ARCH_MODEL_INV_REGISTRY : List (String × List String)
  ARCH_CONFIG_REGISTRY : List (String × ArchFn)

/-- The state right after module load, before any registration. -/
def initState : RegState :=
  { MODEL_REGISTRY := []
    MODEL_DATACLASS_REGISTRY := []
    ARCH_MODEL_REGISTRY := []
    ARCH_MODEL_NAME_REGISTRY := []
    ARCH_MODEL_INV_REGISTRY := []
    ARCH_CONFIG_REGISTRY := [] }

/-- The exceptions the registration decorators raise (`ValueError`s in
Python, distinguished here by their messages). -/
inductive RegError where
  | duplicateModel (name : String)
  | notBaseModel (name clsName : String)
  | notDataclass (dcName : String)
  | unknownModel (model_name : String)
  | duplicateArch (arch_name : String)
deriving DecidableEq

/-- Python `ARCH_MODEL_INV_REGISTRY.setdefault(model_name, []).append(arch_name)`. -/
def invAppend (model_name arch_name : String) :
    List (String × List String) → List (String × List String)
  | [] => [(model_name, [arch_name])]
  | (k, vs) :: rest =>
    if model_name = k then (k, vs ++ [arch_name]) :: rest
    else (k, vs) :: invAppend model_name arch_name rest

/-- The decorator `register_model_architecture(model_name, arch_name)`
applied to `fn` (the inner `register_model_arch_fn`).  The
`callable(fn)` check always passes here since `fn` is a function. -/
def register_model_architecture (model_name arch_name : String) (fn : ArchFn)
    (s : RegState) : RegState × Option RegError :=
  match alookup model_name s.MODEL_REGISTRY with
  | none => (s, some (.unknownModel model_name))
  | some cls =>
    if (alookup arch_name s.ARCH_MODEL_REGISTRY).isSome then
      (s, some (.duplicateArch arch_name))
    else
      ({ s with
          ARCH_MODEL_REGISTRY := s.ARCH_MODEL_REGISTRY ++ [(arch_name, cls)]
          ARCH_MODEL_NAME_REGISTRY := s.ARCH_MODEL_NAME_REGISTRY ++ [(arch_name, model_name)]
          ARCH_MODEL_INV_REGISTRY := invAppend model_name arch_name s.ARCH_MODEL_INV_REGISTRY
          ARCH_CONFIG_REGISTRY := s.ARCH_CONFIG_REGISTRY ++ [(arch_name, fn)] },
        none)

/-- The auto-registered architecture function `noop(_): pass` — it
mutates nothing, hence the identity on configurations. -/
def noop : ArchFn := fun cfg => cfg

/-- The decorator `register_model(name, dataclass)` applied to `cls`
(the inner `register_model_cls`).  Checks and mutations appear in source order:
duplicate-name check, `BaseModel` check, `MODEL_REGISTRY` insertion,
`Dataclass` check, `MODEL_DATACLASS_REGISTRY` insertion, then the
automatic `register_model_architecture(name, name)(noop)`. -/
def register_model (name : String) (dataclass : Option DataclassTy) (cls : ModelClass)
    (s : RegState) : RegState × Option RegError :=
  if (alookup name s.MODEL_REGISTRY).isSome then
    (s, some (.duplicateModel name))
  else if !cls.extendsBaseModel then
    (s, some (.notBaseModel name cls.clsName))
  else
    let s1 := { s with MODEL_REGISTRY := s.MODEL_REGISTRY ++ [(name, cls)] }
    match dataclass with
    | none => (s1, none)
    | some dc =>
      if !dc.extendsDataclass then
        (s1, some (.notDataclass dc.dcName))
      else
        let s2 := { s1 with
          MODEL_DATACLASS_REGISTRY := s1.MODEL_DATACLASS_REGISTRY ++ [(name, dc)] }
        register_model_architecture name name noop s2

/-! ### The builder and config reconciler (`build_model`,
`build_model_from_checkpoint`) -/

/-- The failures `build_model` can raise (the directory-inference
`Exception`, the final `AssertionError`, and a strict-merge rejection
from `merge_with_parent`).  The Python messages interpolate
`MODEL_DATACLASS_REGISTRY.keys()` and the requested type; those data
are carried structurally here. -/
inductive BuildError where
  | unresolvableModelType (available : List String) (requested : String)
  | modelTypeNotFound (available : List String) (requested : Option String)
  | mergeKeyError (key : String)
  | nestedNotDict (key : String)
deriving DecidableEq

/-- Python `getattr(cfg, k, None)` when the stored value is a string
(the only case the modelled flows need: identity fields hold strings). -/
def getStrAttr (cfg : Config) (k : String) : Option String :=
  match alookup k cfg with
  | some (.str s) => some s
  | _ => none

/-- Python truthiness of an optional string (`None` and `""` are
falsy). -/
def truthyStr : Option String → Bool
  | some s => s ≠ ""
  | none => false

/-- Python `a or b` on optional strings: yields `b` when `a` is falsy. -/
def pyOrStr (a b : Option String) : Option String :=
  if truthyStr a then a else b

/-- `getattr(cfg, "_name", None) or getattr(cfg, "arch", None)`. -/
def rawModelType (cfg : Config) : Option String :=
  pyOrStr (getStrAttr cfg "_name") (getStrAttr cfg "arch")

/-- Fields of `cfg` that have no counterpart in the schema defaults. -/
def extraKeys (defaults cfg : Config) : Config :=
  cfg.filter (fun p => (alookup p.1 defaults).isNone)

/-- Caller fields merged onto the schema defaults, caller values
winning, field order that of the defaults. -/
def applyOverrides (defaults cfg : Config) : Config :=
  defaults.map (fun p => (p.1, (alookup p.1 cfg).getD p.2))

/-- Modelled from the spec: `merge_with_parent` (in
`fairseq_signals.dataclass.utils`, a module outside the sources
considered here) — "construct schema defaults, then merge the
caller-supplied fields onto the defaults (caller values win; fields
absent in the defaults are rejected unless a 'loading from checkpoint'
flag is set, which relaxes strictness)". -/
def merge_with_parent (defaults cfg : Config) (from_checkpoint : Bool) :
    Except BuildError Config :=
  match extraKeys defaults cfg with
  | [] => .ok (applyOverrides defaults cfg)
  | (k, _) :: _ =>
    if from_checkpoint then .ok (applyOverrides defaults cfg ++ extraKeys defaults cfg)
    else .error (.mergeKeyError k)

/-- Lines 45–60 of `build_model`: determine the model type from the
identity fields and, when absent on a single-key config, from the
directory convention, descending into the nested value (which the
modelled flows always find to be a dictionary). -/
def inferModelType (s : RegState) (cfg : Config) :
    Except BuildError (Option String × Config) :=
  let mt := rawModelType cfg
  if !truthyStr mt && cfg.length == 1 then
    match cfg with
    | (k, v) :: _ =>
      if (alookup k s.MODEL_DATACLASS_REGISTRY).isSome then
        match v with
        | .dict d => .ok (some k, d)
        | _ => .error (.nestedNotDict k)
      else
        .error (.unresolvableModelType (s.MODEL_DATACLASS_REGISTRY.map Prod.fst) k)
    | [] => .ok (mt, cfg)
  else .ok (mt, cfg)

/-- Lines 62–67 of `build_model`: `ARCH_MODEL_REGISTRY` is consulted
first, `MODEL_REGISTRY` only on dataclass-registered names.  (Python
would raise a `KeyError` were a name in `MODEL_DATACLASS_REGISTRY` but
not in `MODEL_REGISTRY`; that lookup is an `Option` here, and such a
state is ruled out by the registry invariant anyway.) -/
def resolveModelClass (s : RegState) (mt : Option String) : Option ModelClass :=
  match mt with
  | none => none
  | some t =>
    match alookup t s.ARCH_MODEL_REGISTRY with
    | some cls => some cls
    | none =>
      if (alookup t s.MODEL_DATACLASS_REGISTRY).isSome then
        alookup t s.MODEL_REGISTRY
      else none

/-- Lines 69–83 of `build_model`: dataclass-registered types are
merged with their schema defaults; otherwise a registered architecture
function is applied in place; otherwise the config passes through. -/
def resolveConfig (s : RegState) (mt : Option String) (cfg : Config)
    (from_checkpoint : Bool) : Except BuildError Config :=
  match mt with
  | none => .ok cfg
  | some t =>
    match alookup t s.MODEL_DATACLASS_REGISTRY with
    | some dc => merge_with_parent dc.defaults cfg from_checkpoint
    | none =>
      match alookup t s.ARCH_CONFIG_REGISTRY with
      | some fn => .ok (fn cfg)
      | none => .ok cfg

/-- Lines 45–91 of `build_model`: everything up to and including the
`assert model is not None`, returning the resolved class and the
reconciled configuration that are handed to
`model.build_model(cfg, task)`.  The assert runs after config
resolution, so a merge failure propagates first. -/
def build_model_resolve (s : RegState) (cfg0 : Config) (from_checkpoint : Bool) :
    Except BuildError (ModelClass × Config) :=
  match inferModelType s cfg0 with
  | .error e => .error e
  | .ok (mt, cfg1) =>
    let model := resolveModelClass s mt
    match resolveConfig s mt cfg1 from_checkpoint with
    | .error e => .error e
    | .ok cfg2 =>
      match model with
      | some m => .ok (m, cfg2)
      | none => .error (.modelTypeNotFound (s.MODEL_DATACLASS_REGISTRY.map Prod.fst) mt)

/-- A checkpoint as `build_model_from_checkpoint` reads it:
`state["cfg"]["model"]` and the `state["model"]` weights (opaque
here). -/
structure Checkpoint where
  model_cfg : Config

/-- The entry point `build_model_from_checkpoint(checkpoint_path)` up
to its tail call: it loads the checkpoint, flips `no_pretrained_weights` when the flag
exists and is falsy, and delegates to
`build_model(model_cfg, task=None, from_checkpoint=True,
checkpoint_path=checkpoint_path)`.  The checkpoint reader
(`checkpoint_utils.load_checkpoint_to_cpu`, outside the sources
considered here) is passed in as `load`; the result is the argument
triple `(model_cfg, from_checkpoint, checkpoint_path)` handed to
`build_model`. -/
def build_model_from_checkpoint (load : String → Checkpoint)
    (checkpoint_path : String) : Config × Bool × String :=
  let model_cfg := (load checkpoint_path).model_cfg
  let model_cfg :=
    match alookup "no_pretrained_weights" model_cfg with
    | some v =>
      if !truthyVal v then aset "no_pretrained_weights" (.bool true) model_cfg
      else model_cfg
    | none => model_cfg
  (model_cfg, true, checkpoint_path)

/-! ### Registration call sequences and the registry invariant -/

/-- One registration call, successful or failed (a failed call still
leaves its partial mutations behind, as in Python). -/
inductive RegCall where
  | regModel (name : String) (dataclass : Option DataclassTy) (cls : ModelClass)
  | regArch (model_name arch_name : String) (fn : ArchFn)

/-- The state a registration call leaves behind (errors discarded,
mutations kept). -/
def applyCall (s : RegState) : RegCall → RegState
  | .regModel name dataclass cls => (register_model name dataclass cls s).1
  | .regArch model_name arch_name fn =>
    (register_model_architecture model_name arch_name fn s).1

/-- The state after a whole sequence of registration calls, starting
from module load. -/
def applyCalls (calls : List RegCall) : RegState :=
  calls.foldl applyCall initState

/-- The cross-table invariant of the registries: the three
architecture tables have identical key sets; every architecture name
maps through `ARCH_MODEL_NAME_REGISTRY` and `MODEL_REGISTRY` to the
same class `ARCH_MODEL_REGISTRY` stores directly; and every
dataclass-registered name is also model-registered. -/
def RegInvariant (s : RegState) : Prop :=
  (∀ k, (alookup k s.ARCH_MODEL_REGISTRY).isSome
      = (alookup k s.ARCH_MODEL_NAME_REGISTRY).isSome) ∧
  (∀ k, (alookup k s.ARCH_MODEL_NAME_REGISTRY).isSome
      = (alookup k s.ARCH_CONFIG_REGISTRY).isSome) ∧
  (∀ a m, alookup a s.ARCH_MODEL_NAME_REGISTRY = some m →
      alookup a s.ARCH_MODEL_REGISTRY = alookup m s.MODEL_REGISTRY) ∧
  (∀ n, (alookup n s.MODEL_DATACLASS_REGISTRY).isSome = true →
      (alookup n s.MODEL_REGISTRY).isSome = true)

/-! ### Concrete registration scenarios

Used by the counterexamples and witnesses below.  `stateClash` is the
state left behind when a model named `"m1"` is registered plain, an
architecture `"x"` is registered for it, and then a schema-driven
model is registered under the name `"x"`: that last call raises (its
automatic no-op architecture collides with the existing `"x"`), but
its insertions into `MODEL_REGISTRY` and `MODEL_DATACLASS_REGISTRY`
survive, so `"x"` ends up both a legacy architecture name and a
schema-driven model name, bound to two different classes. -/

def clsLegacy : ModelClass := ⟨"LegacyModel", true⟩

def clsSchema : ModelClass := ⟨"SchemaModel", true⟩

def dcEmptyName : DataclassTy := ⟨"SchemaConf", true, [("_name", .str "")]⟩

def stateAfterLegacy : RegState := (register_model "m1" none clsLegacy initState).1

def stateAfterArchX : RegState :=
  (register_model_architecture "m1" "x" noop stateAfterLegacy).1

def stateClash : RegState :=
  (register_model "x" (some dcEmptyName) clsSchema stateAfterArchX).1

/-- A schema-driven model scenario: `"ecg"` registered with a schema
whose defaults are `_name = ""` and `embed_dim = 256`. -/
def clsEcg : ModelClass := ⟨"EcgModel", true⟩

def dcEcg : DataclassTy :=
  ⟨"EcgConf", true, [("_name", .str ""), ("embed_dim", .nat 256)]⟩

def stateEcg : RegState := (register_model "ecg" (some dcEcg) clsEcg initState).1

/-- A dataclass payload that does not extend `Dataclass`. -/
def dcBad : DataclassTy := ⟨"NotADataclass", false, []⟩

/-- A checkpoint reader returning a model config whose
`no_pretrained_weights` flag is `False`. -/
def loadNpwFalse : String → Checkpoint :=
  fun _ => ⟨[("no_pretrained_weights", .bool false), ("embed_dim", .nat 256)]⟩

/-! ### Helper lemmas on ordered-dictionary lookups -/

theorem alookup_nil {α : Type} (k : String) : alookup k ([] : List (String × α)) = none :=
  rfl

theorem alookup_append_some {α : Type} {k : String} {v : α} {l₁ l₂ : List (String × α)}
    (h : alookup k l₁ = some v) : alookup k (l₁ ++ l₂) = some v := by
  induction l₁ with
  | nil => simp [alookup] at h
  | cons p rest ih =>
    obtain ⟨k', v'⟩ := p
    by_cases hk : k = k'
    · simp [alookup, hk] at h ⊢
      exact h
    · simp [alookup, hk] at h ⊢
      exact ih h

theorem alookup_append_none {α : Type} {k : String} {l₁ : List (String × α)}
    (l₂ : List (String × α)) (h : alookup k l₁ = none) :
    alookup k (l₁ ++ l₂) = alookup k l₂ := by
  induction l₁ with
  | nil => rfl
  | cons p rest ih =>
    obtain ⟨k', v'⟩ := p
    by_cases hk : k = k'
    · simp [alookup, hk] at h
    · simp [alookup, hk] at h ⊢
      exact ih h

theorem alookup_isSome_append {α : Type} (k : String) (l₁ l₂ : List (String × α)) :
    (alookup k (l₁ ++ l₂)).isSome
      = ((alookup k l₁).isSome || (alookup k l₂).isSome) := by
  cases h : alookup k l₁ with
  | some v => simp [alookup_append_some h]
  | none => simp [alookup_append_none l₂ h]

theorem alookup_singleton {α : Type} (k k' : String) (v : α) :
    alookup k [(k', v)] = if k = k' then some v else none :=
  rfl

theorem alookup_eq_none_of_forall {α : Type} {k : String} {l : List (String × α)}
    (h : ∀ p ∈ l, p.1 ≠ k) : alookup k l = none := by
  induction l with
  | nil => rfl
  | cons p rest ih =>
    obtain ⟨k', v'⟩ := p
    have hk : k ≠ k' := fun e => h (k', v') (by simp) (by simp [e])
    simp [alookup, hk]
    exact ih (fun q hq => h q (by simp [hq]))

theorem forall_ne_of_alookup_eq_none {α : Type} {k : String} {l : List (String × α)}
    (h : alookup k l = none) : ∀ p ∈ l, p.1 ≠ k := by
  induction l with
  | nil => simp
  | cons p rest ih =>
    obtain ⟨k', v'⟩ := p
    by_cases hk : k = k'
    · simp [alookup, hk] at h
    · simp [alookup, hk] at h
      intro q hq
      rcases List.mem_cons.mp hq with rfl | hq
      · exact fun e => hk e.symm
      · exact ih h q hq

theorem countP_key_eq_zero_of_alookup_eq_none {α : Type} {k : String}
    {l : List (String × α)} (h : alookup k l = none) :
    l.countP (fun p => p.1 == k) = 0 := by
  rw [List.countP_eq_zero]
  intro p hp
  simpa using forall_ne_of_alookup_eq_none h p hp

theorem alookup_aset_self {α : Type} (k : String) (v : α) (l : List (String × α)) :
    alookup k (aset k v l) = some v := by
  induction l with
  | nil => simp [aset, alookup]
  | cons p rest ih =>
    obtain ⟨k', v'⟩ := p
    by_cases hk : k = k'
    · simp [aset, alookup, hk]
    · simp [aset, alookup, hk]
      exact ih

theorem alookup_aset_of_ne {α : Type} {k k' : String} (v : α) (l : List (String × α))
    (h : k' ≠ k) : alookup k' (aset k v l) = alookup k' l := by
  induction l with
  | nil => simp [aset, alookup, h]
  | cons p rest ih =>
    obtain ⟨k'', v''⟩ := p
    by_cases hk : k = k''
    · subst hk
      simp [aset, alookup, h]
    · by_cases hk' : k' = k''
      · simp [aset, alookup, hk, hk']
      · simp [aset, alookup, hk, hk']
        exact ih

theorem alookup_applyOverrides (k : String) (defaults cfg : Config) :
    alookup k (applyOverrides defaults cfg)
      = (alookup k defaults).map (fun d => (alookup k cfg).getD d) := by
  induction defaults with
  | nil => rfl
  | cons p rest ih =>
    obtain ⟨k', d⟩ := p
    by_cases hk : k = k'
    · simp [applyOverrides, alookup, hk]
    · simp [applyOverrides, alookup, hk] at ih ⊢
      exact ih

theorem applyOverrides_nil (defaults : Config) :
    applyOverrides defaults [] = defaults := by
  induction defaults with
  | nil => rfl
  | cons p rest ih =>
    obtain ⟨k, d⟩ := p
    simp [applyOverrides, alookup] at ih ⊢

/-! ### Invariant lemmas -/

theorem regInvariant_initState : RegInvariant initState :=
  ⟨fun _ => rfl, fun _ => rfl,
   fun a m h => by simp [initState, alookup] at h,
   fun n h => by simp [initState, alookup] at h⟩

theorem regInvariant_model_append (s : RegState) (name : String) (cls : ModelClass)
    (hinv : RegInvariant s) (_hfresh : alookup name s.MODEL_REGISTRY = none) :
    RegInvariant { s with MODEL_REGISTRY := s.MODEL_REGISTRY ++ [(name, cls)] } := by
  obtain ⟨i1, i2, i3, i4⟩ := hinv
  refine ⟨i1, i2, ?_, ?_⟩
  · intro a m hN
    have h3 := i3 a m hN
    have hsome : (alookup a s.ARCH_MODEL_REGISTRY).isSome = true := by
      rw [i1 a, hN]
      rfl
    obtain ⟨w, hw⟩ := Option.isSome_iff_exists.mp hsome
    have hMm : alookup m s.MODEL_REGISTRY = some w := by rw [← h3, hw]
    show alookup a s.ARCH_MODEL_REGISTRY
      = alookup m (s.MODEL_REGISTRY ++ [(name, cls)])
    rw [alookup_append_some hMm, hw]
  · intro n h
    have h4 := i4 n h
    show (alookup n (s.MODEL_REGISTRY ++ [(name, cls)])).isSome = true
    rw [alookup_isSome_append]
    simp [h4]

theorem regInvariant_model_dc_append (s : RegState) (name : String) (cls : ModelClass)
    (dc : DataclassTy) (hinv : RegInvariant s)
    (hfresh : alookup name s.MODEL_REGISTRY = none) :
    RegInvariant { s with
      MODEL_REGISTRY := s.MODEL_REGISTRY ++ [(name, cls)]
      MODEL_DATACLASS_REGISTRY := s.MODEL_DATACLASS_REGISTRY ++ [(name, dc)] } := by
  obtain ⟨j1, j2, j3, j4⟩ :=
    regInvariant_model_append s name cls hinv hfresh
  refine ⟨j1, j2, j3, ?_⟩
  · intro n h
    show (alookup n (s.MODEL_REGISTRY ++ [(name, cls)])).isSome = true
    have h' : (alookup n (s.MODEL_DATACLASS_REGISTRY ++ [(name, dc)])).isSome = true := h
    rw [alookup_isSome_append] at h'
    rw [alookup_isSome_append]
    rcases Bool.or_eq_true_iff.mp h' with hold | hsing
    · simp [hinv.2.2.2 n hold]
    · by_cases hk : n = name
      · subst hk
        simp [alookup, hfresh]
      · simp [alookup, hk] at hsing

theorem regInvariant_register_model_architecture (s : RegState)
    (model_name arch_name : String) (fn : ArchFn) (hinv : RegInvariant s) :
    RegInvariant (register_model_architecture model_name arch_name fn s).1 := by
  obtain ⟨i1, i2, i3, i4⟩ := hinv
  cases hm : alookup model_name s.MODEL_REGISTRY with
  | none =>
    have he : (register_model_architecture model_name arch_name fn s).1 = s := by
      simp [register_model_architecture, hm]
    rw [he]
    exact ⟨i1, i2, i3, i4⟩
  | some cls =>
    cases ha' : alookup arch_name s.ARCH_MODEL_REGISTRY with
    | some w =>
      have he : (register_model_architecture model_name arch_name fn s).1 = s := by
        simp [register_model_architecture, hm, ha']
      rw [he]
      exact ⟨i1, i2, i3, i4⟩
    | none =>
      have he : (register_model_architecture model_name arch_name fn s).1
          = { s with
              ARCH_MODEL_REGISTRY := s.ARCH_MODEL_REGISTRY ++ [(arch_name, cls)]
              ARCH_MODEL_NAME_REGISTRY :=
                s.ARCH_MODEL_NAME_REGISTRY ++ [(arch_name, model_name)]
              ARCH_MODEL_INV_REGISTRY :=
                invAppend model_name arch_name s.ARCH_MODEL_INV_REGISTRY
              ARCH_CONFIG_REGISTRY := s.ARCH_CONFIG_REGISTRY ++ [(arch_name, fn)] } := by
        simp [register_model_architecture, hm, ha']
      rw [he]
      refine ⟨?_, ?_, ?_, i4⟩
      · intro k
        show (alookup k (s.ARCH_MODEL_REGISTRY ++ [(arch_name, cls)])).isSome
          = (alookup k (s.ARCH_MODEL_NAME_REGISTRY ++ [(arch_name, model_name)])).isSome
        rw [alookup_isSome_append, alookup_isSome_append, i1 k]
        by_cases hk : k = arch_name <;> simp [alookup, hk]
      · intro k
        show (alookup k (s.ARCH_MODEL_NAME_REGISTRY ++ [(arch_name, model_name)])).isSome
          = (alookup k (s.ARCH_CONFIG_REGISTRY ++ [(arch_name, fn)])).isSome
        rw [alookup_isSome_append, alookup_isSome_append, i2 k]
        by_cases hk : k = arch_name <;> simp [alookup, hk]
      · intro a m hN
        replace hN : alookup a (s.ARCH_MODEL_NAME_REGISTRY ++ [(arch_name, model_name)])
            = some m := hN
        show alookup a (s.ARCH_MODEL_REGISTRY ++ [(arch_name, cls)])
          = alookup m s.MODEL_REGISTRY
        cases hN0 : alookup a s.ARCH_MODEL_NAME_REGISTRY with
        | some m₀ =>
          rw [alookup_append_some hN0] at hN
          injection hN with hEq
          subst hEq
          have h3 := i3 a m₀ hN0
          have hsome : (alookup a s.ARCH_MODEL_REGISTRY).isSome = true := by
            rw [i1 a, hN0]
            rfl
          obtain ⟨w, hw⟩ := Option.isSome_iff_exists.mp hsome
          rw [alookup_append_some hw, ← h3, hw]
        | none =>
          rw [alookup_append_none _ hN0] at hN
          have hA : alookup a s.ARCH_MODEL_REGISTRY = none := by
            apply Option.not_isSome_iff_eq_none.mp
            rw [i1 a, hN0]
            simp
          rw [alookup_append_none _ hA]
          by_cases hk : a = arch_name
          · subst hk
            simp [alookup] at hN ⊢
            rw [← hN, hm]
          · simp [alookup, hk] at hN

theorem regInvariant_register_model (s : RegState) (name : String)
    (dataclass : Option DataclassTy) (cls : ModelClass) (hinv : RegInvariant s) :
    RegInvariant (register_model name dataclass cls s).1 := by
  unfold register_model
  split
  · exact hinv
  next h1 =>
    split
    · exact hinv
    next h2 =>
      have h1' : alookup name s.MODEL_REGISTRY = none := by
        cases hx : alookup name s.MODEL_REGISTRY with
        | none => rfl
        | some v => exact absurd (by rw [hx]; rfl) h1
      cases dataclass with
      | none => exact regInvariant_model_append s name cls hinv h1'
      | some dc =>
        cases hd : dc.extendsDataclass with
        | false =>
          simp only [hd, Bool.not_false, if_true]
          exact regInvariant_model_append s name cls hinv h1'
        | true =>
          simp only [hd, Bool.not_true, Bool.false_eq_true, if_false]
          exact regInvariant_register_model_architecture _ name name noop
            (regInvariant_model_dc_append s name cls dc hinv h1')

theorem regInvariant_applyCall (s : RegState) (c : RegCall) (hinv : RegInvariant s) :
    RegInvariant (applyCall s c) := by
  cases c with
  | regModel n d cl => exact regInvariant_register_model s n d cl hinv
  | regArch m a fn => exact regInvariant_register_model_architecture s m a fn hinv

/-- Shape of a successful schema-carrying model registration: the name
was fresh in both `MODEL_REGISTRY` and `ARCH_MODEL_REGISTRY`, and the
result state appends the class, the dataclass, and the own-name no-op
architecture entry to the respective tables. -/
theorem register_model_some_dc_success_shape (s : RegState) (name : String)
    (dc : DataclassTy) (cls : ModelClass) (s' : RegState)
    (h : register_model name (some dc) cls s = (s', none)) :
    alookup name s.MODEL_REGISTRY = none ∧
    alookup name s.ARCH_MODEL_REGISTRY = none ∧
    s' = { s with
      MODEL_REGISTRY := s.MODEL_REGISTRY ++ [(name, cls)]
      MODEL_DATACLASS_REGISTRY := s.MODEL_DATACLASS_REGISTRY ++ [(name, dc)]
      ARCH_MODEL_REGISTRY := s.ARCH_MODEL_REGISTRY ++ [(name, cls)]
      ARCH_MODEL_NAME_REGISTRY := s.ARCH_MODEL_NAME_REGISTRY ++ [(name, name)]
      ARCH_MODEL_INV_REGISTRY := invAppend name name s.ARCH_MODEL_INV_REGISTRY
      ARCH_CONFIG_REGISTRY := s.ARCH_CONFIG_REGISTRY ++ [(name, noop)] } := by
  simp only [register_model] at h
  cases hm : alookup name s.MODEL_REGISTRY with
  | some v => simp [hm] at h
  | none =>
    cases hb : cls.extendsBaseModel with
    | false => simp [hm, hb] at h
    | true =>
      cases hd : dc.extendsDataclass with
      | false => simp [hm, hb, hd] at h
      | true =>
        simp only [hm, hb, hd, Option.isSome_none, Bool.false_eq_true, if_false,
          Bool.not_true, register_model_architecture] at h
        rw [alookup_append_none [(name, cls)] hm] at h
        simp only [alookup, if_pos rfl] at h
        cases ha : alookup name s.ARCH_MODEL_REGISTRY with
        | some w => simp [ha] at h
        | none =>
          simp only [ha, Option.isSome_none, Bool.false_eq_true, if_false] at h
          refine ⟨rfl, rfl, ?_⟩
          obtain ⟨h', -⟩ := Prod.mk.injEq .. ▸ h
          exact h'.symm

/-! ### The claims -/

/-- C2: for every name, when a model is already registered under that
name, a second registration attempt fails with the
duplicate-registration error and leaves the whole registry state — in
particular the model registry table — exactly as it was. -/
theorem C2_duplicate_model_registration_rejected_unchanged
    (s : RegState) (name : String) (dataclass : Option DataclassTy) (cls : ModelClass)
    (h : (alookup name s.MODEL_REGISTRY).isSome = true) :
    register_model name dataclass cls s = (s, some (RegError.duplicateModel name)) := by
  simp [register_model, h]

/-- C2 witness: re-registering `"m1"` after `stateAfterLegacy` fails
with the duplicate error and returns the state untouched. -/
theorem C2_duplicate_model_registration_rejected_unchanged_witness :
    (alookup "m1" stateAfterLegacy.MODEL_REGISTRY).isSome = true ∧
    register_model "m1" none clsLegacy stateAfterLegacy
      = (stateAfterLegacy, some (RegError.duplicateModel "m1")) :=
  ⟨rfl, C2_duplicate_model_registration_rejected_unchanged stateAfterLegacy "m1" none
    clsLegacy rfl⟩

/-- C3: registering a `BaseModel` subclass under a fresh name with a
payload that does not extend `Dataclass` raises, yet the failed call
leaves `name ↦ cls` in `MODEL_REGISTRY`: registration errors are not
atomic with respect to the model-class table. -/
theorem C3_failed_dataclass_registration_not_rolled_back
    (s : RegState) (name : String) (dc : DataclassTy) (cls : ModelClass)
    (h1 : alookup name s.MODEL_REGISTRY = none)
    (h2 : cls.extendsBaseModel = true)
    (h3 : dc.extendsDataclass = false) :
    (register_model name (some dc) cls s).2 = some (RegError.notDataclass dc.dcName) ∧
    alookup name (register_model name (some dc) cls s).1.MODEL_REGISTRY = some cls := by
  have hs : register_model name (some dc) cls s
      = ({ s with MODEL_REGISTRY := s.MODEL_REGISTRY ++ [(name, cls)] },
         some (RegError.notDataclass dc.dcName)) := by
    simp [register_model, h1, h2, h3]
  rw [hs]
  refine ⟨rfl, ?_⟩
  rw [alookup_append_none _ h1]
  simp [alookup]

/-- C3 witness: registering `"m0"` with the non-`Dataclass` payload on
the empty registry raises, while `MODEL_REGISTRY` keeps the class. -/
theorem C3_failed_dataclass_registration_not_rolled_back_witness :
    (register_model "m0" (some dcBad) clsLegacy initState).2
      = some (RegError.notDataclass "NotADataclass") ∧
    alookup "m0" (register_model "m0" (some dcBad) clsLegacy initState).1.MODEL_REGISTRY
      = some clsLegacy :=
  C3_failed_dataclass_registration_not_rolled_back initState "m0" dcBad clsLegacy
    rfl rfl rfl

/-- C6: registering an architecture for a model name absent from the
Model Class Registry fails with the unknown-model error and changes
nothing, whatever else the state contains — so regardless of which
other architectures were registered before or after. -/
theorem C6_register_architecture_unknown_model_always_fails
    (s : RegState) (model_name arch_name : String) (fn : ArchFn)
    (h : alookup model_name s.MODEL_REGISTRY = none) :
    register_model_architecture model_name arch_name fn s
      = (s, some (RegError.unknownModel model_name)) := by
  simp [register_model_architecture, h]

/-- C6 witness: registering architecture `"a1"` for the unregistered
model `"ghost"` in a state that already holds other models and
architectures fails with the unknown-model error. -/
theorem C6_register_architecture_unknown_model_always_fails_witness :
    alookup "ghost" stateAfterArchX.MODEL_REGISTRY = none ∧
    register_model_architecture "ghost" "a1" noop stateAfterArchX
      = (stateAfterArchX, some (RegError.unknownModel "ghost")) :=
  ⟨rfl, C6_register_architecture_unknown_model_always_fails stateAfterArchX "ghost" "a1"
    noop rfl⟩

/-- C4: when the determined model type has neither a registered
dataclass nor a registered architecture function, the reconciliation
step passes the configuration through unmodified: model-type inference
returns the input config and config resolution returns it unchanged. -/
theorem C4_unregistered_type_config_passes_through
    (s : RegState) (cfg : Config) (t : String) (fc : Bool)
    (h1 : rawModelType cfg = some t) (h2 : t ≠ "")
    (h3 : alookup t s.MODEL_DATACLASS_REGISTRY = none)
    (h4 : alookup t s.ARCH_CONFIG_REGISTRY = none) :
    inferModelType s cfg = .ok (some t, cfg) ∧
    resolveConfig s (some t) cfg fc = .ok cfg := by
  constructor
  · simp [inferModelType, h1, truthyStr, h2]
  · simp [resolveConfig, h3, h4]

/-- C4 witness: with only the plain model `"m1"` registered, the
config `{"arch": "m1"}` flows through reconciliation untouched. -/
theorem C4_unregistered_type_config_passes_through_witness :
    inferModelType stateAfterLegacy [("arch", ConfigVal.str "m1")]
      = .ok (some "m1", [("arch", ConfigVal.str "m1")]) ∧
    resolveConfig stateAfterLegacy (some "m1") [("arch", ConfigVal.str "m1")] false
      = .ok [("arch", ConfigVal.str "m1")] :=
  C4_unregistered_type_config_passes_through stateAfterLegacy
    [("arch", ConfigVal.str "m1")] "m1" false rfl (by decide) rfl rfl

/-- C7: a determined model type registered neither as an architecture
name nor as a dataclass-registered model name makes the build fail,
and the failure carries the full list of registered schema names
together with the requested type (the data the Python assertion
message interpolates). -/
theorem C7_unknown_model_type_fails_listing_schema_names
    (s : RegState) (cfg : Config) (t : String) (fc : Bool)
    (h1 : rawModelType cfg = some t) (h2 : t ≠ "")
    (h3 : alookup t s.ARCH_MODEL_REGISTRY = none)
    (h4 : alookup t s.MODEL_DATACLASS_REGISTRY = none) :
    build_model_resolve s cfg fc
      = .error (.modelTypeNotFound (s.MODEL_DATACLASS_REGISTRY.map Prod.fst) (some t)) := by
  have hinf : inferModelType s cfg = .ok (some t, cfg) := by
    simp [inferModelType, h1, truthyStr, h2]
  unfold build_model_resolve
  rw [hinf]
  cases h5 : alookup t s.ARCH_CONFIG_REGISTRY <;>
    simp [resolveConfig, resolveModelClass, h3, h4, h5]

/-- C7 witness: with the schema-driven model `"ecg"` registered,
building `{"arch": "unknown_arch_xyz"}` fails and the failure lists
the registered schema name `"ecg"` and the requested type. -/
theorem C7_unknown_model_type_fails_listing_schema_names_witness :
    build_model_resolve stateEcg [("arch", ConfigVal.str "unknown_arch_xyz")] false
      = .error (.modelTypeNotFound ["ecg"] (some "unknown_arch_xyz")) := by
  have h := C7_unknown_model_type_fails_listing_schema_names stateEcg
    [("arch", ConfigVal.str "unknown_arch_xyz")] "unknown_arch_xyz" false
    rfl (by decide) rfl rfl
  exact h

/-- C9: the checkpoint entry point delegates to the builder with
`from_checkpoint = True` and the same checkpoint path; it flips the
embedded config's `no_pretrained_weights` flag to `True` exactly when
the flag is present and previously false, and passes a config without
the flag (or with it already truthy) through unmodified. -/
theorem C9_checkpoint_build_forces_no_pretrained_weights
    (load : String → Checkpoint) (path : String) :
    (build_model_from_checkpoint load path).2.1 = true ∧
    (build_model_from_checkpoint load path).2.2 = path ∧
    (alookup "no_pretrained_weights" (load path).model_cfg = none →
      (build_model_from_checkpoint load path).1 = (load path).model_cfg) ∧
    (alookup "no_pretrained_weights" (load path).model_cfg = some (.bool true) →
      (build_model_from_checkpoint load path).1 = (load path).model_cfg) ∧
    (alookup "no_pretrained_weights" (load path).model_cfg = some (.bool false) →
      alookup "no_pretrained_weights" (build_model_from_checkpoint load path).1
        = some (.bool true) ∧
      ∀ k, k ≠ "no_pretrained_weights" →
        alookup k (build_model_from_checkpoint load path).1
          = alookup k (load path).model_cfg) := by
  refine ⟨rfl, rfl, ?_, ?_, ?_⟩
  · intro h
    simp [build_model_from_checkpoint, h]
  · intro h
    simp [build_model_from_checkpoint, h, truthyVal]
  · intro h
    constructor
    · simp [build_model_from_checkpoint, h, truthyVal, alookup_aset_self]
    · intro k hk
      simp [build_model_from_checkpoint, h, truthyVal]
      exact alookup_aset_of_ne _ _ hk

/-- C9 witness: a checkpoint whose config carries
`no_pretrained_weights = False` comes back with the flag forced to
`True` and the same path handed on. -/
theorem C9_checkpoint_build_forces_no_pretrained_weights_witness :
    alookup "no_pretrained_weights"
        (build_model_from_checkpoint loadNpwFalse "model.pt").1
      = some (ConfigVal.bool true) ∧
    (build_model_from_checkpoint loadNpwFalse "model.pt").2.2 = "model.pt" := by
  have h := C9_checkpoint_build_forces_no_pretrained_weights loadNpwFalse "model.pt"
  exact ⟨(h.2.2.2.2 rfl).1, h.2.1⟩

/-- C1 counterexample: in `stateClash` the name `"x"` is registered
both as a legacy architecture name (bound to `clsLegacy`) and as a
schema-driven model name (bound to `clsSchema`), and build resolves
the class from the legacy architecture registry, not from the schema
registration: the legacy table is looked up first, so the schema
registration does not take precedence. -/
theorem C1_schema_precedence_counterexample :
    (alookup "x" stateClash.ARCH_MODEL_REGISTRY).isSome = true ∧
    (alookup "x" stateClash.MODEL_DATACLASS_REGISTRY).isSome = true ∧
    alookup "x" stateClash.MODEL_REGISTRY = some clsSchema ∧
    resolveModelClass stateClash (some "x") = some clsLegacy ∧
    clsLegacy ≠ clsSchema ∧
    (build_model_resolve stateClash [("_name", ConfigVal.str "x")] false).map Prod.fst
      = .ok clsLegacy :=
  ⟨rfl, rfl, rfl, rfl, by decide, rfl⟩

/-- C1 amended: when the determined model type is present both as a
legacy architecture name and as a schema-driven model name, the legacy
architecture registry is looked up first and its entry resolves the
ModelClass; the schema registration governs only config merging.  (The
two entries denote the same class whenever both arose from successful
registrations, since a schema-driven model's own-name architecture
entry is created by its registration.) -/
theorem C1_amended_legacy_registry_looked_up_first
    (s : RegState) (t : String) (cls : ModelClass)
    (harch : alookup t s.ARCH_MODEL_REGISTRY = some cls)
    (_hdc : (alookup t s.MODEL_DATACLASS_REGISTRY).isSome = true) :
    resolveModelClass s (some t) = some cls := by
  simp [resolveModelClass, harch]

/-- C1 amended witness: in `stateClash`, resolution of `"x"` returns
the legacy architecture entry. -/
theorem C1_amended_legacy_registry_looked_up_first_witness :
    resolveModelClass stateClash (some "x") = some clsLegacy :=
  C1_amended_legacy_registry_looked_up_first stateClash "x" clsLegacy rfl rfl

/-- C5 counterexample: with the schema-driven model `"ecg"` registered
(schema defaults `_name = ""`, `embed_dim = 256`), the single-key
directory config resolves with `_name` left at the schema default
while the flat `_name` config resolves with `_name = "ecg"`: the two
resolved configurations are not equal. -/
theorem C5_directory_vs_flat_counterexample :
    (register_model "ecg" (some dcEcg) clsEcg initState).2 = none ∧
    build_model_resolve stateEcg [("ecg", ConfigVal.dict [])] false
      = .ok (clsEcg, [("_name", ConfigVal.str ""), ("embed_dim", ConfigVal.nat 256)]) ∧
    build_model_resolve stateEcg [("_name", ConfigVal.str "ecg")] false
      = .ok (clsEcg, [("_name", ConfigVal.str "ecg"), ("embed_dim", ConfigVal.nat 256)]) ∧
    ([("_name", ConfigVal.str ""), ("embed_dim", ConfigVal.nat 256)] : Config)
      ≠ [("_name", ConfigVal.str "ecg"), ("embed_dim", ConfigVal.nat 256)] :=
  ⟨rfl, rfl, rfl, by simp⟩

/-- C5 amended: for every model name `n` with a registered schema
(`n` nonempty and distinct from the literal identity keys), the
directory form `{ n: {} }` and the flat form `{ "_name": n }` resolve
to the same model class and to configurations that agree on every
field except the identity field: the directory form keeps the schema's
`_name` default, the flat form sets `_name` to `n`. -/
theorem C5_amended_directory_vs_flat_agree_except_name
    (s : RegState) (n : String) (dc : DataclassTy) (cls : ModelClass)
    (hdc : alookup n s.MODEL_DATACLASS_REGISTRY = some dc)
    (hne : n ≠ "") (hn1 : n ≠ "_name") (hn2 : n ≠ "arch")
    (hid : (alookup "_name" dc.defaults).isSome = true)
    (hcls : resolveModelClass s (some n) = some cls) :
    build_model_resolve s [(n, ConfigVal.dict [])] false = .ok (cls, dc.defaults) ∧
    ∃ cfg2,
      build_model_resolve s [("_name", ConfigVal.str n)] false = .ok (cls, cfg2) ∧
      alookup "_name" cfg2 = some (ConfigVal.str n) ∧
      ∀ k, k ≠ "_name" → alookup k cfg2 = alookup k dc.defaults := by
  constructor
  · have hinf : inferModelType s [(n, ConfigVal.dict [])] = .ok (some n, []) := by
      simp [inferModelType, rawModelType, getStrAttr, pyOrStr, truthyStr, alookup,
        Ne.symm hn1, Ne.symm hn2, hdc]
    have hres : resolveConfig s (some n) [] false = .ok dc.defaults := by
      simp [resolveConfig, hdc, merge_with_parent, extraKeys, applyOverrides_nil]
    simp [build_model_resolve, hinf, hres, hcls]
  · refine ⟨applyOverrides dc.defaults [("_name", ConfigVal.str n)], ?_, ?_, ?_⟩
    · have hinf : inferModelType s [("_name", ConfigVal.str n)]
          = .ok (some n, [("_name", ConfigVal.str n)]) := by
        simp [inferModelType, rawModelType, getStrAttr, pyOrStr, truthyStr, alookup, hne]
      obtain ⟨v, hv⟩ := Option.isSome_iff_exists.mp hid
      have hextras : extraKeys dc.defaults [("_name", ConfigVal.str n)] = [] := by
        simp [extraKeys, hv]
      have hres : resolveConfig s (some n) [("_name", ConfigVal.str n)] false
          = .ok (applyOverrides dc.defaults [("_name", ConfigVal.str n)]) := by
        simp [resolveConfig, hdc, merge_with_parent, hextras]
      simp [build_model_resolve, hinf, hres, hcls]
    · obtain ⟨v, hv⟩ := Option.isSome_iff_exists.mp hid
      simp [alookup_applyOverrides, hv, alookup]
    · intro k hk
      simp [alookup_applyOverrides, alookup, hk]

/-- C5 amended witness: instantiated on the `"ecg"` scenario. -/
theorem C5_amended_directory_vs_flat_agree_except_name_witness :
    build_model_resolve stateEcg [("ecg", ConfigVal.dict [])] false
      = .ok (clsEcg, dcEcg.defaults) ∧
    ∃ cfg2,
      build_model_resolve stateEcg [("_name", ConfigVal.str "ecg")] false
        = .ok (clsEcg, cfg2) ∧
      alookup "_name" cfg2 = some (ConfigVal.str "ecg") ∧
      ∀ k, k ≠ "_name" → alookup k cfg2 = alookup k dcEcg.defaults :=
  C5_amended_directory_vs_flat_agree_except_name stateEcg "ecg" dcEcg clsEcg rfl
    (by decide) (by decide) (by decide) rfl rfl

/-- C8: a model registered successfully together with a schema gets
exactly one automatic architecture entry under its own name, whose
function is the no-op: the architecture-function table maps the
model's name to `noop`, `noop` leaves every configuration unchanged,
and the table holds exactly one entry under that name. -/
theorem C8_schema_registration_installs_unique_noop_arch
    (s : RegState) (name : String) (dc : DataclassTy) (cls : ModelClass) (s' : RegState)
    (hinv : RegInvariant s)
    (h : register_model name (some dc) cls s = (s', none)) :
    alookup name s'.ARCH_CONFIG_REGISTRY = some noop ∧
    (∀ cfg, noop cfg = cfg) ∧
    s'.ARCH_CONFIG_REGISTRY.countP (fun p => p.1 == name) = 1 := by
  obtain ⟨hm, ha, hs'⟩ := register_model_some_dc_success_shape s name dc cls s' h
  have hcfg : alookup name s.ARCH_CONFIG_REGISTRY = none := by
    apply Option.not_isSome_iff_eq_none.mp
    rw [← hinv.2.1 name, ← hinv.1 name, ha]
    simp
  subst hs'
  refine ⟨?_, fun cfg => rfl, ?_⟩
  · show alookup name (s.ARCH_CONFIG_REGISTRY ++ [(name, noop)]) = some noop
    rw [alookup_append_none _ hcfg]
    simp [alookup]
  · show (s.ARCH_CONFIG_REGISTRY ++ [(name, noop)]).countP (fun p => p.1 == name) = 1
    rw [List.countP_append, countP_key_eq_zero_of_alookup_eq_none hcfg]
    simp [List.countP_cons]

/-- C8 witness: registering `"ecg"` with its schema on the empty
registry installs the single no-op architecture entry `"ecg"`. -/
theorem C8_schema_registration_installs_unique_noop_arch_witness :
    alookup "ecg" stateEcg.ARCH_CONFIG_REGISTRY = some noop ∧
    (∀ cfg, noop cfg = cfg) ∧
    stateEcg.ARCH_CONFIG_REGISTRY.countP (fun p => p.1 == "ecg") = 1 :=
  C8_schema_registration_installs_unique_noop_arch initState "ecg" dcEcg clsEcg
    stateEcg regInvariant_initState rfl

/-- C10: after every sequence of registration calls — successful or
failed — starting from module load, the three architecture tables have
identical key sets, every architecture entry agrees with the model
registry through the name table, and every dataclass-registered name
is also model-registered. -/
theorem C10_registry_cross_table_invariant (calls : List RegCall) :
    RegInvariant (applyCalls calls) := by
  suffices h : ∀ t : RegState, RegInvariant t → RegInvariant (calls.foldl applyCall t) by
    exact h initState regInvariant_initState
  induction calls with
  | nil => exact fun t ht => ht
  | cons c rest ih => exact fun t ht => ih (applyCall t c) (regInvariant_applyCall t c ht)

end FairseqSignals
